import Mathlib

/-!
Shallow embedding of the Compliance Evaluation & Reporting Engine of
`src/app.py` (Water Safety Dashboard), together with theorems settling the
specification claims about it.

Modelling conventions:
* A numeric cell of the dataframe is a `Val := Option ℚ`; `none` models a
  missing value, which pandas represents as the float `NaN`.  Every
  comparison with `NaN` is false in Python/NumPy, so the comparison helpers
  `vle`, `vge`, `veq` return `false` whenever either side is `none`.
* Strings are Lean `String`s; the status labels keep the exact emoji-bearing
  text of the source.
* Whole-dataframe operations become functions on `List`s of row structures.
* Non-integer numeric literals of the source (`6.5`, `7.5`) are embedded as
  exact rationals via `mkRat`, since scientific-notation `ℚ` literals do not
  reduce in the kernel.
-/

set_option autoImplicit false

namespace WaterApp

/-- A dataframe cell: `none` models pandas `NaN` (missing measurement). -/
abbrev Val := Option ℚ

/-- Python `a <= b` where either side may be `NaN`: any comparison with a
missing value is false. -/
def vle : Val → Val → Bool
  | some x, some y => decide (x ≤ y)
  | _, _ => false

/-- Python `a >= b` with `NaN` semantics. -/
def vge (a b : Val) : Bool := vle b a

/-- Python `a == b` where either side may be `NaN`: `NaN == x` is false. -/
def veq : Val → Val → Bool
  | some x, some y => decide (x = y)
  | _, _ => false

/-- `app.py` line 87: `"✅ OK" if 6.5 <= x <= 7.5 else "⚠️ Out of Range"`.
The bounds `6.5` and `7.5` are `mkRat 13 2` and `mkRat 15 2`. -/
def ph_status (x : Val) : String :=
  if vle (some (mkRat 13 2)) x && vle x (some (mkRat 15 2)) then "✅ OK"
  else "⚠️ Out of Range"

/-- `app.py` line 89: `"✅ OK" if x <= 300 else "⚠️ High"`. -/
def tds_status (x : Val) : String :=
  if vle x (some 300) then "✅ OK" else "⚠️ High"

/-- `app.py` line 91: `"✅ OK" if x <= 400 else "⚠️ High"`. -/
def ec_status (x : Val) : String :=
  if vle x (some 400) then "✅ OK" else "⚠️ High"

/-- `app.py` line 93: `"✅ Safe" if x == 0 else "🚨 Unsafe"`. -/
def coliform_status (x : Val) : String :=
  if veq x (some 0) then "✅ Safe" else "🚨 Unsafe"

/-- `app.py` lines 95–100: the chained conditional over hardness tiers. -/
def hardness_status (x : Val) : String :=
  if vle x (some 60) then "💧 Soft"
  else if vle x (some 120) then "🧂 Moderate"
  else if vle x (some 180) then "🪨 Hard"
  else "⚠️ Very Hard"

/-- `app.py` line 102: `"✅ Good" if x >= 6 else "⚠️ Low"`. -/
def do_status (x : Val) : String :=
  if vge x (some 6) then "✅ Good" else "⚠️ Low"

/-! ## EC split stage, `app.py` lines 50–53

`phys_df[['ec_val', 'temp']] = phys_df['EC'].str.split('/', expand=True).astype(float)`

`str.split('/', expand=True)` splits every cell on `'/'` and pads short rows
with `None` up to the maximal token count of the column; `astype(float)`
parses every token (`None` becomes `NaN`) and raises on any non-numeric
token; the two-column assignment raises unless the expanded frame has exactly
two columns.  Any exception is caught by the surrounding `try/except`, which
shows an error message and leaves the `ec_val`/`temp` columns entirely
absent — an all-or-nothing batch operation. -/

/-- Split a character list on a separator character, keeping empty pieces,
as Python `str.split(sep)` does for one cell. -/
def splitOnChar (sep : Char) : List Char → List (List Char)
  | [] => [[]]
  | c :: t =>
    if c = sep then [] :: splitOnChar sep t
    else
      match splitOnChar sep t with
      | h :: r => (c :: h) :: r
      | [] => [[c]]

/-- The `str.split('/')` of the source, on one cell. -/
def splitSlash (cs : List Char) : List (List Char) := splitOnChar '/' cs

/-- Value of a decimal digit. -/
def digVal (c : Char) : Option Nat :=
  if c.isDigit then some (c.toNat - 48) else none

/-- Parse a nonempty all-digit character list as a natural number. -/
def parseDigits (cs : List Char) : Option Nat :=
  cs.foldl
    (fun acc c =>
      match acc, digVal c with
      | some n, some d => some (n * 10 + d)
      | _, _ => none)
    (if cs.isEmpty then none else some 0)

/-- Models Python `float(token)` on the decimal literals this pipeline sees:
an optional sign, then `digits`, `digits.digits`, `digits.` or `.digits`.
(Scientific notation, `inf`/`nan` and surrounding whitespace are accepted by
Python but never occur in the analysed inputs and are not modelled.) -/
def parseFloat (cs : List Char) : Option ℚ :=
  let sgn : Int := match cs with | '-' :: _ => -1 | _ => 1
  let body : List Char := match cs with | '-' :: t => t | '+' :: t => t | _ => cs
  match splitOnChar '.' body with
  | [intPart] =>
    match parseDigits intPart with
    | some n => some (mkRat (sgn * n) 1)
    | none => none
  | [intPart, fracPart] =>
    if intPart.isEmpty && fracPart.isEmpty then none
    else
      match parseDigits (if intPart.isEmpty then ['0'] else intPart),
            parseDigits (if fracPart.isEmpty then ['0'] else fracPart) with
      | some n, some f =>
        some (mkRat (sgn * (n * 10 ^ fracPart.length + f)) (10 ^ fracPart.length))
      | _, _ => none
  | _ => none

/-- One row of `astype(float)` after `expand=True` padding, given that the
expanded frame has exactly two columns: a 2-token row must have both tokens
numeric; a 1-token row is padded with `None`, which `astype(float)` turns
into `NaN` (`none` in our `Val`).  `none` as the overall result models the
exception raised by `astype(float)` on a non-numeric token. -/
def ecRow (ts : List (List Char)) : Option (Val × Val) :=
  match ts with
  | [a, b] =>
    match parseFloat a, parseFloat b with
    | some x, some y => some (some x, some y)
    | _, _ => none
  | [a] =>
    match parseFloat a with
    | some x => some (some x, none)
    | none => none
  | _ => none

/-- All rows of the `astype(float)` conversion; `none` if any row raises. -/
def ecRows : List String → Option (List (Val × Val))
  | [] => some []
  | s :: t =>
    match ecRow (splitSlash s.data), ecRows t with
    | some v, some vs => some (v :: vs)
    | _, _ => none

/-- Number of columns produced by `str.split('/', expand=True)`: the maximal
token count over the column. -/
def maxTokens (ecs : List String) : Nat :=
  (ecs.map fun s => (splitSlash s.data).length).foldr max 0

/-- The whole `try` block of lines 50–53: the two-column assignment succeeds
only when the expanded split has exactly two columns and every token parses;
otherwise the exception is caught and no `ec_val`/`temp` columns exist
(`none`). -/
def ecSplitBatch (ecs : List String) : Option (List (Val × Val)) :=
  if maxTokens ecs == 2 then ecRows ecs else none

/-! ## Rows and the merge, `app.py` line 55

`df = pd.merge(phys_df, bact_df, on="Sample", how="inner")` -/

/-- A row of the physical-parameter CSV: sample identifier, numeric columns,
and the raw combined `EC` string (`"<EC>/<Temp>"`).  `do_val` embeds the `DO`
column (`do` is a reserved word in Lean). -/
structure PhysRow where
  sample : String
  ph : Val
  tds : Val
  hardness : Val
  do_val : Val
  ec : String
deriving DecidableEq

/-- A row of the bacterial-test CSV. -/
structure BactRow where
  sample : String
  coliform : Val
deriving DecidableEq

/-- The physical dataframe after the EC-split `try` block: when the split
succeeded each row carries its `(ec_val, temp)` pair; when it raised, the
columns are absent from every row (`none`). -/
def physWithEC (phys : List PhysRow) : List (PhysRow × Option (Val × Val)) :=
  match ecSplitBatch (phys.map PhysRow.ec) with
  | some cols => phys.zipWith (fun p c => (p, some c)) cols
  | none => phys.map fun p => (p, none)

/-- `pd.merge(left, right, on=key, how="inner")`: every pair of a left row
and a right row with equal keys, left-major order. -/
def pdMergeInner {α β : Type} (left : List α) (right : List β)
    (ka : α → String) (kb : β → String) : List (α × β) :=
  left.flatMap fun p => (right.filter fun b => kb b == ka p).map fun b => (p, b)

/-- Line 55 applied to the upload pipeline: inner merge of the (EC-split)
physical rows with the bacterial rows on the sample identifier. -/
def uploadMerged (phys : List PhysRow) (bact : List BactRow) :
    List ((PhysRow × Option (Val × Val)) × BactRow) :=
  pdMergeInner (physWithEC phys) bact (fun p => p.1.sample) BactRow.sample

/-- The `ec_status` column of the upload path: line 90 guards the column with
`if 'ec_val' in df.columns`, so it exists only when the EC split succeeded;
`none` models the column being skipped for the whole batch. -/
def ecStatusColumn (phys : List PhysRow) : Option (List String) :=
  (ecSplitBatch (phys.map PhysRow.ec)).map fun cols => cols.map fun c => ec_status c.1

/-! ## The merged dataframe, WHO statuses, and the AI-prediction block -/

/-- One row of the merged dataframe with all numeric columns present
(the fully-populated schema the WHO checks and the predictor read). -/
structure MergedRow where
  sample : String
  ph : Val
  tds : Val
  ec_val : Val
  temp : Val
  hardness : Val
  do_val : Val
  coliform : Val
deriving DecidableEq

/-- View a merged-output row as a `MergedRow`; used on batches whose EC split
succeeded, so that `ec_val`/`temp` are the split pair. -/
def toMergedRow (r : (PhysRow × Option (Val × Val)) × BactRow) : MergedRow where
  sample := r.1.1.sample
  ph := r.1.1.ph
  tds := r.1.1.tds
  ec_val := match r.1.2 with | some c => c.1 | none => none
  temp := match r.1.2 with | some c => c.2 | none => none
  hardness := r.1.1.hardness
  do_val := r.1.1.do_val
  coliform := r.2.coliform

/-- The six WHO status columns of lines 86–102 for one row. -/
structure StatusRow where
  ph_s : String
  tds_s : String
  ec_s : String
  coliform_s : String
  hardness_s : String
  do_s : String
deriving DecidableEq

/-- Lines 86–102: the status columns, computed row-wise by `apply`, before
and independently of the AI-prediction block. -/
def whoStatuses (r : MergedRow) : StatusRow where
  ph_s := ph_status r.ph
  tds_s := tds_status r.tds
  ec_s := ec_status r.ec_val
  coliform_s := coliform_status r.coliform
  hardness_s := hardness_status r.hardness
  do_s := do_status r.do_val

/-- The external model-plus-scaler: given the feature matrix
`df[["ec_val", "temp", "ph", "tds"]]`, either a score matrix (one score
vector per row) or a raised exception with its message. -/
abbrev Predictor := List (List Val) → Except String (List (List ℚ))

/-- Line 109: the feature columns, in the order the source fixes. -/
def featureVector (r : MergedRow) : List Val := [r.ec_val, r.temp, r.ph, r.tds]

/-- Index of the first maximal element, as `np.argmax` on one row.
(`np.argmax` raises on an empty row; the model always emits a nonempty score
vector, and we return `0` in that unreachable case.) -/
def argmaxAux : List ℚ → Nat → Nat → ℚ → Nat
  | [], _, best, _ => best
  | x :: t, i, best, bv => if bv < x then argmaxAux t (i + 1) i x else argmaxAux t (i + 1) best bv

/-- `np.argmax(scores, axis=1)` on one row. -/
def argmax : List ℚ → Nat
  | [] => 0
  | x :: t => argmaxAux t 1 0 x

/-- Line 113: `.map({0: "Good", 1: "Moderate", 2: "Poor"})`; keys outside the
dict map to `NaN` (`none`). -/
def interpretLabel (n : Nat) : Option String :=
  if n == 0 then some "Good"
  else if n == 1 then some "Moderate"
  else if n == 2 then some "Poor"
  else none

/-- Lines 104–118: the `try/except` around the predictor.  On success the
`interpretation` column is the mapped argmax of the scores; on any exception
the column is the broadcast scalar `"Unavailable"`. -/
def interpretations (rows : List MergedRow) (predict : Predictor) : List (Option String) :=
  match predict (rows.map featureVector) with
  | Except.ok scores => scores.map fun v => interpretLabel (argmax v)
  | Except.error _ => rows.map fun _ => some "Unavailable"

/-- The processing section over a merged batch: the WHO status columns
(lines 86–102) and the `interpretation` column (lines 104–118). -/
def evaluateBatch (rows : List MergedRow) (predict : Predictor) :
    List StatusRow × List (Option String) :=
  (rows.map whoStatuses, interpretations rows predict)

/-! ## The advisory, `app.py` line 143

`if "🚨 Unsafe" in df.get("coliform_status", []):` — Python `in` on a pandas
`Series` tests membership in the series' *index* (its row labels), not in its
values.  The merged dataframe carries the default integer `RangeIndex`. -/

/-- A Python scalar as it participates in `==`/hash-based membership:
values of different types compare unequal. -/
inductive PyVal where
  | int : Int → PyVal
  | str : String → PyVal
deriving DecidableEq

/-- Python `==` between scalars of possibly different types. -/
def pyEq : PyVal → PyVal → Bool
  | PyVal.int a, PyVal.int b => a == b
  | PyVal.str a, PyVal.str b => a == b
  | _, _ => false

/-- `key in series`: membership of `key` in the index labels. -/
def seriesContains (key : PyVal) (index : List PyVal) : Bool :=
  index.any (pyEq key)

/-- Line 143 for a batch with a `coliform_status` column: whether the boiling
advisory branch is entered.  The index of the column is the RangeIndex
`0, 1, …, n-1`. -/
def showBoilAdvisory (coliformStatuses : List String) : Bool :=
  seriesContains (PyVal.str "🚨 Unsafe")
    ((List.range coliformStatuses.length).map fun i => PyVal.int i)

/-! ## The safety summary, `app.py` lines 152–162 -/

/-- Substring occurrence on character lists. -/
def hasSubstr : List Char → List Char → Bool
  | [], pat => pat.isEmpty
  | s@(_ :: t), pat => pat.isPrefixOf s || hasSubstr t pat

/-- Python `pat in s` / one alternative of `Series.str.contains`. -/
def strContainsStr (s pat : String) : Bool := hasSubstr s.data pat.data

/-- Line 161: `df[col].str.contains("✅|💧|🧂|🪨")` on one status string — a
regex alternation of four literal substrings. -/
def isAcceptable (s : String) : Bool :=
  strContainsStr s "✅" || strContainsStr s "💧" ||
    strContainsStr s "🧂" || strContainsStr s "🪨"

/-- Lines 160–162: `total = len(df)`, `safe = df[col].str.contains(...).sum()`,
and the displayed percentage `safe/total*100`. -/
def summaryPct (statuses : List String) : ℚ :=
  ((statuses.countP isAcceptable : ℚ) / (statuses.length : ℚ)) * 100

/-- Stated from the spec's words (claim C4), for comparison with `summaryPct`:
count of acceptable statuses over the count of non-MISSING samples, as a
percentage; undefined (`none`) when every sample is MISSING. -/
def specAcceptableFraction (values : List Val) (status : Val → String) : Option ℚ :=
  if (values.countP fun v => !(v == none)) == 0 then none
  else
    some (((values.countP fun v => !(v == none) && isAcceptable (status v)) : ℚ) /
      ((values.countP fun v => !(v == none)) : ℚ) * 100)

/-! ## Sanity checks on concrete inputs -/

example : splitSlash "800/25".data = [['8', '0', '0'], ['2', '5']] := by decide
example : parseFloat "800".data = some 800 := by decide
example : parseFloat "6.5".data = some (mkRat 13 2) := by decide
example : parseFloat "abc".data = none := by decide
example : ecSplitBatch ["800/25"] = some [(some 800, some 25)] := by decide
example : ecSplitBatch ["abc", "800/25"] = none := by decide
example : ecSplitBatch ["abc"] = none := by decide
example : ecSplitBatch ["800/25/3", "1/2"] = none := by decide
example : ecSplitBatch ["800", "900/25"] = some [(some 800, none), (some 900, some 25)] := by
  decide
example : ph_status (some 7) = "✅ OK" := by decide
example : ph_status none = "⚠️ Out of Range" := by decide
example : tds_status (some 300) = "✅ OK" := by decide
example : tds_status (some 400) = "⚠️ High" := by decide
example : hardness_status none = "⚠️ Very Hard" := by decide
example : coliform_status none = "🚨 Unsafe" := by decide
example : do_status (some 6) = "✅ Good" := by decide
example : isAcceptable "✅ OK" = true := by decide
example : isAcceptable "⚠️ Out of Range" = false := by decide
example : isAcceptable "🪨 Hard" = true := by decide
example : isAcceptable "⚠️ Very Hard" = false := by decide
example : showBoilAdvisory ["🚨 Unsafe"] = false := by decide
example :
    uploadMerged [⟨"A1", some 7, some 400, some 150, some 6, "800/25"⟩] [⟨"A1", some 0⟩] =
      [((⟨"A1", some 7, some 400, some 150, some 6, "800/25"⟩, some (some 800, some 25)),
        ⟨"A1", some 0⟩)] := by decide

/-! ## Helper lemmas -/

theorem ph_status_cases (v : Val) :
    ph_status v = "✅ OK" ∨ ph_status v = "⚠️ Out of Range" := by
  unfold ph_status
  split
  · exact Or.inl rfl
  · exact Or.inr rfl

theorem tds_status_cases (v : Val) :
    tds_status v = "✅ OK" ∨ tds_status v = "⚠️ High" := by
  unfold tds_status
  split
  · exact Or.inl rfl
  · exact Or.inr rfl

theorem ec_status_cases (v : Val) :
    ec_status v = "✅ OK" ∨ ec_status v = "⚠️ High" := by
  unfold ec_status
  split
  · exact Or.inl rfl
  · exact Or.inr rfl

theorem coliform_status_cases (v : Val) :
    coliform_status v = "✅ Safe" ∨ coliform_status v = "🚨 Unsafe" := by
  unfold coliform_status
  split
  · exact Or.inl rfl
  · exact Or.inr rfl

theorem do_status_cases (v : Val) :
    do_status v = "✅ Good" ∨ do_status v = "⚠️ Low" := by
  unfold do_status
  split
  · exact Or.inl rfl
  · exact Or.inr rfl

theorem hardness_status_cases (v : Val) :
    hardness_status v = "💧 Soft" ∨ hardness_status v = "🧂 Moderate" ∨
      hardness_status v = "🪨 Hard" ∨ hardness_status v = "⚠️ Very Hard" := by
  unfold hardness_status
  split
  · exact Or.inl rfl
  split
  · exact Or.inr (Or.inl rfl)
  split
  · exact Or.inr (Or.inr (Or.inl rfl))
  · exact Or.inr (Or.inr (Or.inr rfl))

theorem upperOnly_status (bound : ℚ) (okLabel hiLabel : String)
    (hne : okLabel ≠ hiLabel) (x : ℚ) :
    ((if vle (some x) (some bound) then okLabel else hiLabel) = hiLabel ↔ bound < x) ∧
    ((if vle (some x) (some bound) then okLabel else hiLabel) = okLabel ↔ x ≤ bound) := by
  by_cases h : x ≤ bound
  · have hb : vle (some x) (some bound) = true := decide_eq_true h
    rw [if_pos hb]
    exact ⟨iff_of_false hne (not_lt.mpr h), iff_of_true rfl h⟩
  · have hb : ¬vle (some x) (some bound) = true := fun hb => h (of_decide_eq_true hb)
    rw [if_neg hb]
    exact ⟨iff_of_true rfl (not_le.mp h), iff_of_false (fun hs => hne hs.symm) h⟩

theorem mem_map_key_pdMergeInner {α β : Type} (left : List α) (right : List β)
    (ka : α → String) (kb : β → String) (s : String) :
    s ∈ (pdMergeInner left right ka kb).map (fun r => ka r.1) ↔
      (s ∈ left.map ka ∧ s ∈ right.map kb) := by
  constructor
  · intro hs
    rw [List.mem_map] at hs
    obtain ⟨r, hr, rfl⟩ := hs
    rw [pdMergeInner, List.mem_flatMap] at hr
    obtain ⟨p, hp, hr⟩ := hr
    rw [List.mem_map] at hr
    obtain ⟨b, hb, rfl⟩ := hr
    rw [List.mem_filter, beq_iff_eq] at hb
    exact ⟨List.mem_map.mpr ⟨p, hp, rfl⟩, List.mem_map.mpr ⟨b, hb.1, hb.2⟩⟩
  · rintro ⟨hl, hr⟩
    rw [List.mem_map] at hl hr
    obtain ⟨p, hp, rfl⟩ := hl
    obtain ⟨b, hb, hkb⟩ := hr
    refine List.mem_map.mpr ⟨(p, b), ?_, rfl⟩
    rw [pdMergeInner, List.mem_flatMap]
    exact ⟨p, hp, List.mem_map.mpr ⟨b, List.mem_filter.mpr ⟨hb, beq_iff_eq.mpr hkb⟩, rfl⟩⟩

theorem mem_fst_pdMergeInner {α β : Type} {left : List α} {right : List β}
    {ka : α → String} {kb : β → String} {r : α × β}
    (h : r ∈ pdMergeInner left right ka kb) : r.1 ∈ left := by
  rw [pdMergeInner, List.mem_flatMap] at h
  obtain ⟨p, hp, h⟩ := h
  rw [List.mem_map] at h
  obtain ⟨b, _, rfl⟩ := h
  exact hp

theorem ecRows_length {ecs : List String} {vs : List (Val × Val)}
    (h : ecRows ecs = some vs) : vs.length = ecs.length := by
  induction ecs generalizing vs with
  | nil => simp [ecRows] at h; simp [← h]
  | cons s t ih =>
    rw [ecRows] at h
    cases h1 : ecRow (splitSlash s.data) with
    | none => rw [h1] at h; exact absurd h (by simp)
    | some v =>
      rw [h1] at h
      cases h2 : ecRows t with
      | none => rw [h2] at h; exact absurd h (by simp)
      | some vs' =>
        rw [h2] at h
        simp only [Option.some.injEq] at h
        subst h
        simp [ih h2]

theorem zipWith_pair_map_fst {α β : Type} (l : List α) (c : List β)
    (h : l.length ≤ c.length) :
    (l.zipWith (fun p v => (p, some v)) c).map Prod.fst = l := by
  induction l generalizing c with
  | nil => simp
  | cons p t ih =>
    cases c with
    | nil => simp at h
    | cons v cs =>
      simp only [List.zipWith_cons_cons, List.map_cons]
      simp only [List.length_cons, Nat.add_le_add_iff_right] at h
      exact congrArg (p :: ·) (ih cs h)

theorem physWithEC_map_fst (phys : List PhysRow) :
    (physWithEC phys).map Prod.fst = phys := by
  unfold physWithEC
  cases h : ecSplitBatch (phys.map PhysRow.ec) with
  | none => simp [Function.comp_def]
  | some cols =>
    apply zipWith_pair_map_fst
    have hlen : cols.length = phys.length := by
      rw [ecSplitBatch] at h
      split at h
      · simpa using ecRows_length h
      · exact absurd h (by simp)
    exact le_of_eq hlen.symm

theorem uploadMerged_idset (phys : List PhysRow) (bact : List BactRow) (s : String) :
    s ∈ (uploadMerged phys bact).map (fun r => r.1.1.sample) ↔
      (s ∈ phys.map PhysRow.sample ∧ s ∈ bact.map BactRow.sample) := by
  have h := mem_map_key_pdMergeInner (physWithEC phys) bact
    (fun p => p.1.sample) BactRow.sample s
  rw [uploadMerged]
  rw [h]
  have : (physWithEC phys).map (fun p => p.1.sample) = phys.map PhysRow.sample := by
    have := congrArg (List.map PhysRow.sample) (physWithEC_map_fst phys)
    simpa [List.map_map, Function.comp] using this
  rw [this]

theorem ecRow_none_of_bad_token {ts : List (List Char)} {t : List Char}
    (ht : t ∈ ts) (hbad : parseFloat t = none) : ecRow ts = none := by
  match ts with
  | [] => simp at ht
  | [a] =>
    rcases List.mem_singleton.mp ht with rfl
    simp [ecRow, hbad]
  | [a, b] =>
    rcases List.mem_cons.mp ht with rfl | h'
    · simp [ecRow, hbad]
    · rcases List.mem_singleton.mp h' with rfl
      rw [ecRow, hbad]
      cases parseFloat a <;> rfl
  | _ :: _ :: _ :: _ => rfl

theorem ecRows_none_of_mem {ecs : List String} {s : String} (hs : s ∈ ecs)
    (hrow : ecRow (splitSlash s.data) = none) : ecRows ecs = none := by
  induction ecs with
  | nil => simp at hs
  | cons a t ih =>
    rcases List.mem_cons.mp hs with rfl | h'
    · rw [ecRows, hrow]
    · rw [ecRows, ih h']
      cases ecRow (splitSlash a.data) <;> rfl

theorem ecSplitBatch_none_of_bad_token {ecs : List String} {s : String} {t : List Char}
    (hs : s ∈ ecs) (ht : t ∈ splitSlash s.data) (hbad : parseFloat t = none) :
    ecSplitBatch ecs = none := by
  rw [ecSplitBatch]
  split
  · exact ecRows_none_of_mem hs (ecRow_none_of_bad_token ht hbad)
  · rfl

theorem summaryPct_amended_for (status : Val → String)
    (hnone : isAcceptable (status none) = false) (values : List Val) :
    summaryPct (values.map status) =
      (((values.map status).countP isAcceptable : ℚ) / (values.length : ℚ)) * 100 ∧
    ((∀ v ∈ values, v = none) → summaryPct (values.map status) = 0) := by
  constructor
  · rw [summaryPct, List.length_map]
  · intro hall
    have hz : (values.map status).countP isAcceptable = 0 := by
      rw [List.countP_eq_zero]
      intro a ha
      rw [List.mem_map] at ha
      obtain ⟨v, hv, rfl⟩ := ha
      rw [hall v hv, hnone]
      exact Bool.false_ne_true
    rw [summaryPct, hz]
    norm_num

/-! ## Claim theorems -/

/-- C1, counterexample: the claim says a MISSING pH value yields a MISSING
status, never a violation status; in the code a `NaN` pH fails both
comparisons of line 87 and receives `"⚠️ Out of Range"` — the very status a
violating value such as `20` receives. -/
theorem c1_missing_counterexample :
    ph_status none = "⚠️ Out of Range" ∧ ph_status (some 20) = "⚠️ Out of Range" := by
  decide

/-- C1, amended: a MISSING (NaN) value for each rule-engine parameter
receives that parameter's violation status (`NaN` comparisons are false, so
every `apply` lambda falls into its else branch); it is never the OK status,
and no distinct MISSING status exists in the code. -/
theorem c1_missing_amended :
    (ph_status none = "⚠️ Out of Range" ∧ ph_status none ≠ "✅ OK") ∧
    (tds_status none = "⚠️ High" ∧ tds_status none ≠ "✅ OK") ∧
    (ec_status none = "⚠️ High" ∧ ec_status none ≠ "✅ OK") ∧
    (do_status none = "⚠️ Low" ∧ do_status none ≠ "✅ Good") ∧
    coliform_status none = "🚨 Unsafe" ∧
    hardness_status none = "⚠️ Very Hard" := by
  decide

/-- C2: if the external predictor raises, the `interpretation` column is
`"Unavailable"` for every sample of the batch, the evaluation still returns,
and the WHO status columns are identical to those of a run with any
succeeding predictor (they are computed at lines 86–102, before and
independently of the `try` block at lines 104–118). -/
theorem c2_predictor_failure (rows : List MergedRow) (p q : Predictor) (msg : String)
    (h : p (rows.map featureVector) = Except.error msg) :
    (evaluateBatch rows p).2 = rows.map (fun _ => some "Unavailable") ∧
    (evaluateBatch rows p).1 = (evaluateBatch rows q).1 := by
  refine ⟨?_, rfl⟩
  rw [evaluateBatch, interpretations, h]

/-- C2, witness: a one-sample batch with a predictor that raises. -/
theorem c2_predictor_failure_witness :
    (fun _ => Except.error "model file missing" : Predictor)
        (([⟨"A1", some 7, some 400, some 800, some 25, some 150, some 6, some 0⟩] :
          List MergedRow).map featureVector) = Except.error "model file missing" ∧
    ((evaluateBatch [⟨"A1", some 7, some 400, some 800, some 25, some 150, some 6, some 0⟩]
        (fun _ => Except.error "model file missing")).2 =
      ([⟨"A1", some 7, some 400, some 800, some 25, some 150, some 6, some 0⟩] :
        List MergedRow).map (fun _ => some "Unavailable") ∧
     (evaluateBatch [⟨"A1", some 7, some 400, some 800, some 25, some 150, some 6, some 0⟩]
        (fun _ => Except.error "model file missing")).1 =
      (evaluateBatch [⟨"A1", some 7, some 400, some 800, some 25, some 150, some 6, some 0⟩]
        (fun _ => Except.ok [[1, 0, 0]])).1) :=
  ⟨rfl, c2_predictor_failure
    [⟨"A1", some 7, some 400, some 800, some 25, some 150, some 6, some 0⟩]
    (fun _ => Except.error "model file missing")
    (fun _ => Except.ok [[1, 0, 0]]) "model file missing" rfl⟩

/-- C3, counterexample: the claim says the malformed `EC` value `"abc"` marks
only that record's conductivity/temperature MISSING and leaves other records
unaffected; in the code the single `astype(float)` raises, the `except`
branch leaves the columns absent for the whole batch (`none`), so the
two-record batch does not produce the claimed per-record result. -/
theorem c3_parse_warning_counterexample :
    ecSplitBatch ["abc", "800/25"] ≠ some [(none, none), (some 800, some 25)] ∧
    ecSplitBatch ["abc", "800/25"] = none := by
  decide

/-- C3, amended: a record whose `EC` field contains a non-numeric token makes
the whole-batch split raise: no record receives `ec_val`/`temp` columns, the
`ec_status` column is skipped for the entire batch (there is no per-record
`ParseWarning`, only one batch-level error message), and every record still
appears in the merged output, whose sample-identifier set is unaffected. -/
theorem c3_parse_warning_amended (phys : List PhysRow) (bact : List BactRow)
    (h : ∃ p ∈ phys, ∃ t ∈ splitSlash p.ec.data, parseFloat t = none) :
    ecSplitBatch (phys.map PhysRow.ec) = none ∧
    ecStatusColumn phys = none ∧
    (∀ r ∈ uploadMerged phys bact, r.1.2 = none) ∧
    (∀ s, s ∈ (uploadMerged phys bact).map (fun r => r.1.1.sample) ↔
      (s ∈ phys.map PhysRow.sample ∧ s ∈ bact.map BactRow.sample)) := by
  obtain ⟨p, hp, t, ht, hbad⟩ := h
  have hsplit : ecSplitBatch (phys.map PhysRow.ec) = none :=
    ecSplitBatch_none_of_bad_token (List.mem_map_of_mem PhysRow.ec hp) ht hbad
  refine ⟨hsplit, ?_, ?_, fun s => uploadMerged_idset phys bact s⟩
  · rw [ecStatusColumn, hsplit]
    rfl
  · intro r hr
    have h1 : r.1 ∈ physWithEC phys := mem_fst_pdMergeInner hr
    rw [physWithEC, hsplit] at h1
    rw [List.mem_map] at h1
    obtain ⟨a, _, hae⟩ := h1
    rw [← hae]

/-- C3, witness: a two-record batch in which the first record's `EC` field is
`"abc"` and the second is well-formed. -/
theorem c3_parse_warning_witness :
    (∃ p ∈ ([⟨"A1", some 7, some 400, some 150, some 6, "abc"⟩,
             ⟨"B2", some 7, some 100, some 50, some 7, "800/25"⟩] : List PhysRow),
      ∃ t ∈ splitSlash p.ec.data, parseFloat t = none) ∧
    (ecSplitBatch (([⟨"A1", some 7, some 400, some 150, some 6, "abc"⟩,
        ⟨"B2", some 7, some 100, some 50, some 7, "800/25"⟩] : List PhysRow).map
          PhysRow.ec) = none ∧
     ecStatusColumn [⟨"A1", some 7, some 400, some 150, some 6, "abc"⟩,
        ⟨"B2", some 7, some 100, some 50, some 7, "800/25"⟩] = none ∧
     (∀ r ∈ uploadMerged
          [⟨"A1", some 7, some 400, some 150, some 6, "abc"⟩,
           ⟨"B2", some 7, some 100, some 50, some 7, "800/25"⟩]
          [⟨"A1", some 0⟩, ⟨"B2", some 1⟩], r.1.2 = none) ∧
     (∀ s, s ∈ (uploadMerged
          [⟨"A1", some 7, some 400, some 150, some 6, "abc"⟩,
           ⟨"B2", some 7, some 100, some 50, some 7, "800/25"⟩]
          [⟨"A1", some 0⟩, ⟨"B2", some 1⟩]).map (fun r => r.1.1.sample) ↔
        (s ∈ ([⟨"A1", some 7, some 400, some 150, some 6, "abc"⟩,
               ⟨"B2", some 7, some 100, some 50, some 7, "800/25"⟩] : List PhysRow).map
                 PhysRow.sample ∧
         s ∈ ([⟨"A1", some 0⟩, ⟨"B2", some 1⟩] : List BactRow).map BactRow.sample))) :=
  ⟨by decide,
    c3_parse_warning_amended
      [⟨"A1", some 7, some 400, some 150, some 6, "abc"⟩,
       ⟨"B2", some 7, some 100, some 50, some 7, "800/25"⟩]
      [⟨"A1", some 0⟩, ⟨"B2", some 1⟩] (by decide)⟩

/-- C4, counterexample: for the pH column of a two-sample batch with values
`7.0` and `NaN`, the claim's formula (acceptable over non-MISSING, here
`1/1`) gives `100`, but the code's summary line divides by `len(df)` and
prints `50`: the denominator is the total row count, not the non-MISSING
count. -/
theorem c4_fraction_counterexample :
    specAcceptableFraction [some 7, none] ph_status = some 100 ∧
    summaryPct (([some 7, none] : List Val).map ph_status) = 50 := by
  have h1 : (([some 7, none] : List Val).countP fun v => !(v == none)) = 1 := by decide
  have h2 : (([some 7, none] : List Val).countP
      fun v => !(v == none) && isAcceptable (ph_status v)) = 1 := by decide
  have h3 : ((([some 7, none] : List Val).map ph_status).countP isAcceptable) = 1 := by decide
  constructor
  · rw [specAcceptableFraction, h1, h2]
    norm_num
  · rw [summaryPct, h3, List.length_map]
    norm_num

/-- C4, amended: for every parameter column of the summary loop, the
displayed percentage is the count of acceptable statuses divided by the total
number of samples (`len(df)`), times 100; samples whose value is MISSING
receive a violation status, count in the denominator, and a batch whose
values are all MISSING is reported as `0`, not as undefined. -/
theorem c4_fraction_amended (values : List Val) (h : values ≠ []) :
    (summaryPct (values.map ph_status) =
      (((values.map ph_status).countP isAcceptable : ℚ) / (values.length : ℚ)) * 100 ∧
     ((∀ v ∈ values, v = none) → summaryPct (values.map ph_status) = 0)) ∧
    (summaryPct (values.map tds_status) =
      (((values.map tds_status).countP isAcceptable : ℚ) / (values.length : ℚ)) * 100 ∧
     ((∀ v ∈ values, v = none) → summaryPct (values.map tds_status) = 0)) ∧
    (summaryPct (values.map ec_status) =
      (((values.map ec_status).countP isAcceptable : ℚ) / (values.length : ℚ)) * 100 ∧
     ((∀ v ∈ values, v = none) → summaryPct (values.map ec_status) = 0)) ∧
    (summaryPct (values.map coliform_status) =
      (((values.map coliform_status).countP isAcceptable : ℚ) / (values.length : ℚ)) * 100 ∧
     ((∀ v ∈ values, v = none) → summaryPct (values.map coliform_status) = 0)) ∧
    (summaryPct (values.map hardness_status) =
      (((values.map hardness_status).countP isAcceptable : ℚ) / (values.length : ℚ)) * 100 ∧
     ((∀ v ∈ values, v = none) → summaryPct (values.map hardness_status) = 0)) ∧
    (summaryPct (values.map do_status) =
      (((values.map do_status).countP isAcceptable : ℚ) / (values.length : ℚ)) * 100 ∧
     ((∀ v ∈ values, v = none) → summaryPct (values.map do_status) = 0)) :=
  ⟨summaryPct_amended_for ph_status (by decide) values,
   summaryPct_amended_for tds_status (by decide) values,
   summaryPct_amended_for ec_status (by decide) values,
   summaryPct_amended_for coliform_status (by decide) values,
   summaryPct_amended_for hardness_status (by decide) values,
   summaryPct_amended_for do_status (by decide) values⟩

/-- C4, witness: a one-sample batch whose value is MISSING in every column. -/
theorem c4_fraction_witness :
    ([none] : List Val) ≠ [] ∧
    ((summaryPct (([none] : List Val).map ph_status) =
       (((([none] : List Val).map ph_status).countP isAcceptable : ℚ) /
         ((([none] : List Val).length : ℚ))) * 100 ∧
      ((∀ v ∈ ([none] : List Val), v = none) →
        summaryPct (([none] : List Val).map ph_status) = 0)) ∧
     (summaryPct (([none] : List Val).map tds_status) =
       (((([none] : List Val).map tds_status).countP isAcceptable : ℚ) /
         ((([none] : List Val).length : ℚ))) * 100 ∧
      ((∀ v ∈ ([none] : List Val), v = none) →
        summaryPct (([none] : List Val).map tds_status) = 0)) ∧
     (summaryPct (([none] : List Val).map ec_status) =
       (((([none] : List Val).map ec_status).countP isAcceptable : ℚ) /
         ((([none] : List Val).length : ℚ))) * 100 ∧
      ((∀ v ∈ ([none] : List Val), v = none) →
        summaryPct (([none] : List Val).map ec_status) = 0)) ∧
     (summaryPct (([none] : List Val).map coliform_status) =
       (((([none] : List Val).map coliform_status).countP isAcceptable : ℚ) /
         ((([none] : List Val).length : ℚ))) * 100 ∧
      ((∀ v ∈ ([none] : List Val), v = none) →
        summaryPct (([none] : List Val).map coliform_status) = 0)) ∧
     (summaryPct (([none] : List Val).map hardness_status) =
       (((([none] : List Val).map hardness_status).countP isAcceptable : ℚ) /
         ((([none] : List Val).length : ℚ))) * 100 ∧
      ((∀ v ∈ ([none] : List Val), v = none) →
        summaryPct (([none] : List Val).map hardness_status) = 0)) ∧
     (summaryPct (([none] : List Val).map do_status) =
       (((([none] : List Val).map do_status).countP isAcceptable : ℚ) /
         ((([none] : List Val).length : ℚ))) * 100 ∧
      ((∀ v ∈ ([none] : List Val), v = none) →
        summaryPct (([none] : List Val).map do_status) = 0))) :=
  ⟨by decide, c4_fraction_amended [none] (by decide)⟩

/-- C5: the claim says a batch containing a coliform-positive sample gets the
contamination (boiling-water) advisory; in the code, line 143 tests
`"🚨 Unsafe" in df.get("coliform_status", [])`, and Python `in` on a pandas
Series checks the *index* (the integer RangeIndex), never the values, so the
advisory branch is dead: it is not entered for any batch, including the
failing input of a single sample with coliform `1` (status `"🚨 Unsafe"`). -/
theorem c5_advisory_never_shown :
    coliform_status (some 1) = "🚨 Unsafe" ∧
    showBoilAdvisory [coliform_status (some 1)] = false ∧
    (∀ statuses : List String, showBoilAdvisory statuses = false) := by
  refine ⟨by decide, by decide, ?_⟩
  intro sts
  rw [showBoilAdvisory, seriesContains]
  rw [List.any_eq_false]
  intro x hx
  rw [List.mem_map] at hx
  obtain ⟨i, _, rfl⟩ := hx
  exact Bool.false_ne_true

/-- C6, counterexample: for the spec's example row (`pH=7.0`, `TDS=400`,
`EC="800/25"`, `Hardness=150`, `DO=6.0`, `Coliform=0`) the claim says the
TDS and conductivity statuses are OK; the code's thresholds are `300` and
`400` (not the claimed `1000`/`1500` table), so both are `"⚠️ High"`. -/
theorem c6_example_counterexample :
    ((uploadMerged [⟨"A1", some 7, some 400, some 150, some 6, "800/25"⟩]
        [⟨"A1", some 0⟩]).map toMergedRow) =
      [⟨"A1", some 7, some 400, some 800, some 25, some 150, some 6, some 0⟩] ∧
    tds_status (some 400) = "⚠️ High" ∧
    ec_status (some 800) = "⚠️ High" ∧
    "⚠️ High" ≠ "✅ OK" := by
  decide

/-- C6, amended: for physical row `Sample=A1, pH=7.0, TDS=400, EC="800/25",
Hardness=150, DO=6.0` joined with bacterial row `Sample=A1, Coliform=0`, the
merged sample has conductivity `800` and temperature `25`; under the code's
rule table (pH 6.5–7.5, TDS ≤ 300, EC ≤ 400) the pH status is OK, the TDS
and conductivity statuses are High, coliform is Safe, hardness is Hard, DO is
Good, and no advisory is displayed (the boiling-advisory branch does not
fire, and the code has no fully-compliant advisory). -/
theorem c6_example_amended :
    ((uploadMerged [⟨"A1", some 7, some 400, some 150, some 6, "800/25"⟩]
        [⟨"A1", some 0⟩]).map toMergedRow).map (fun r => (r.ec_val, r.temp)) =
      [(some 800, some 25)] ∧
    ((uploadMerged [⟨"A1", some 7, some 400, some 150, some 6, "800/25"⟩]
        [⟨"A1", some 0⟩]).map toMergedRow).map whoStatuses =
      [⟨"✅ OK", "⚠️ High", "⚠️ High", "✅ Safe", "🪨 Hard", "✅ Good"⟩] ∧
    showBoilAdvisory (((uploadMerged
        [⟨"A1", some 7, some 400, some 150, some 6, "800/25"⟩]
        [⟨"A1", some 0⟩]).map toMergedRow).map fun r => coliform_status r.coliform) =
      false := by
  decide

/-- C7: for the two upper-bound-only parameters (TDS with bound `300`, EC
with bound `400`) and every non-MISSING value, the status is the High
(out-of-range) status exactly when the value strictly exceeds the bound, and
OK exactly when the value is at most the bound — a value equal to the bound
is OK. -/
theorem c7_upper_bound_strict (x : ℚ) :
    (tds_status (some x) = "⚠️ High" ↔ 300 < x) ∧
    (tds_status (some x) = "✅ OK" ↔ x ≤ 300) ∧
    (ec_status (some x) = "⚠️ High" ↔ 400 < x) ∧
    (ec_status (some x) = "✅ OK" ↔ x ≤ 400) ∧
    tds_status (some 300) = "✅ OK" ∧ ec_status (some 400) = "✅ OK" := by
  have h300 := upperOnly_status 300 "✅ OK" "⚠️ High" (by decide) x
  have h400 := upperOnly_status 400 "✅ OK" "⚠️ High" (by decide) x
  exact ⟨h300.1, h300.2, h400.1, h400.2, by decide, by decide⟩

/-- C8: the sample identifiers of the merged output are exactly the
intersection of the identifier sets of the two raw sources — an identifier
appears in `pd.merge(..., on="Sample", how="inner")` iff it appears in the
physical rows and in the bacterial rows. -/
theorem c8_merge_inner_idset (phys : List PhysRow) (bact : List BactRow) (s : String) :
    s ∈ (uploadMerged phys bact).map (fun r => r.1.1.sample) ↔
      (s ∈ phys.map PhysRow.sample ∧ s ∈ bact.map BactRow.sample) :=
  uploadMerged_idset phys bact s

/-- C9: a MISSING (NaN) hardness fails all three `<=` comparisons of the
chained conditional at lines 95–100 and falls to the final catch-all
`"⚠️ Very Hard"` — there is no MISSING status; and every sample receives one
of the four categories Soft, Moderate, Hard, Very Hard. -/
theorem c9_hardness_catch_all :
    hardness_status none = "⚠️ Very Hard" ∧
    ∀ v : Val, hardness_status v = "💧 Soft" ∨ hardness_status v = "🧂 Moderate" ∨
      hardness_status v = "🪨 Hard" ∨ hardness_status v = "⚠️ Very Hard" :=
  ⟨by decide, hardness_status_cases⟩

/-- C10: a status string counts as acceptable in the summary exactly when it
contains one of the markers `✅`, `💧`, `🧂`, `🪨`; consequently Soft,
Moderate and Hard are acceptable hardness categories while Very Hard is not,
Safe is acceptable for coliform while Unsafe is not, and for pH, TDS, EC and
DO only the OK/Good status is acceptable. -/
theorem c10_acceptable_set (v : Val) :
    (isAcceptable (ph_status v) = true ↔ ph_status v = "✅ OK") ∧
    (isAcceptable (tds_status v) = true ↔ tds_status v = "✅ OK") ∧
    (isAcceptable (ec_status v) = true ↔ ec_status v = "✅ OK") ∧
    (isAcceptable (coliform_status v) = true ↔ coliform_status v = "✅ Safe") ∧
    (isAcceptable (do_status v) = true ↔ do_status v = "✅ Good") ∧
    (isAcceptable (hardness_status v) = true ↔ hardness_status v ≠ "⚠️ Very Hard") := by
  refine ⟨?_, ?_, ?_, ?_, ?_, ?_⟩
  · rcases ph_status_cases v with h | h <;> rw [h] <;> decide
  · rcases tds_status_cases v with h | h <;> rw [h] <;> decide
  · rcases ec_status_cases v with h | h <;> rw [h] <;> decide
  · rcases coliform_status_cases v with h | h <;> rw [h] <;> decide
  · rcases do_status_cases v with h | h <;> rw [h] <;> decide
  · rcases hardness_status_cases v with h | h | h | h <;> rw [h] <;> decide

end WaterApp
